import Mathlib

/-!
Verification of the Under5-Mortality-Model orchestration layer.

The source (src/app.py) is shallowly embedded below.  Pandas DataFrames
are modelled as a list of column names together with a list of typed rows;
importance scores are modelled as rationals (they are used only for
relative ordering).  The pandas call nlargest(n, col) with the default
keep equal to first short-circuits n at most zero to the empty frame
before any sorting; for 0 < n < the column length it takes a fast path
(kth-smallest plus a stable mergesort argsort on the negated column),
which is a stable descending selection; for n at least the column length
it falls back to sort_values descending with the default quicksort, whose
order among tied values is implementation defined (it varies with the
numpy version and hardware) and is not in general the original row order.
The embedding stableTopN below implements the stable descending selection
together with the non-positive short-circuit: this is exact on the
short-circuit and on the fast path, and every theorem in this development
that goes through it does so at inputs where the source either returns
before the selection, has non-positive n, or sits on a tie-free fast-path
input; no theorem relies on the tie order of the slow path.

Parts of the specification (the Prediction Invoker, the Request Assembler
and capability-tagged model handles) are not implemented in the source,
which stubs the prediction logic; those are modelled from the spec and
marked as such in their doc comments.
-/

/-! Feature importance table (pandas DataFrame model) -/

/-- One row of the feature-importance DataFrame: columns Target, Feature,
Importance of src/app.py. -/
structure Row where
  target : String
  feature : String
  importance : Rat
deriving DecidableEq

/-- A pandas DataFrame holding importance rows: the set of column names is
kept alongside the data because get_top_features checks for required
columns before touching the data. -/
structure DataFrame where
  columns : List String
  rows : List Row
deriving DecidableEq

/-- The required columns checked by get_top_features in src/app.py
(capitalised, exactly as in the source). -/
def required_cols : List String := ["Target", "Feature", "Importance"]

/-- The column-presence check of get_top_features:
all(col in feature_importances.columns for col in required_cols). -/
def hasRequiredCols (df : DataFrame) : Bool :=
  required_cols.all (fun c => df.columns.contains c)

/-- Python str.lower, modelled as the per-character lowercase map (the
strings in this development are ASCII, where the two agree); written by
structural recursion on the character list so that it evaluates inside
the kernel. -/
def strLower (s : String) : String :=
  String.mk (s.data.map Char.toLower)

/-- A row paired with its original position in the table. -/
abbrev IdxRow := Nat × Row

/-- The stable descending ordering used by stableTopN: higher importance
first, ties broken by original position. -/
def rle (a b : IdxRow) : Prop :=
  b.2.importance < a.2.importance ∨
    (a.2.importance = b.2.importance ∧ a.1 ≤ b.1)

instance : DecidableRel rle := fun a b =>
  inferInstanceAs (Decidable (b.2.importance < a.2.importance ∨
    (a.2.importance = b.2.importance ∧ a.1 ≤ b.1)))

/-- Stable descending top-n selection: stable sort by descending
importance (ties keep original order) followed by take top_n, with
Int.toNat reproducing the pandas short-circuit of non-positive n to the
empty frame.  This models filtered_df.nlargest(top_n, Importance) exactly
when top_n is at most zero or below the number of rows (the pandas fast
path); for top_n at least the number of rows pandas instead runs
sort_values descending with the default quicksort, whose tie order is
implementation defined, so in that regime this definition is the
spec-intended stable semantics rather than a guarantee of the program,
and no theorem below depends on it there. -/
def stableTopN (top_n : Int) (l : List IdxRow) : List IdxRow :=
  (List.insertionSort rle l).take top_n.toNat

/-- The case-insensitive target filter of get_top_features:
feature_importances[Target].str.lower() == target.lower(), with original
positions attached. -/
def filteredRows (df : DataFrame) (target : String) : List IdxRow :=
  df.rows.enum.filter (fun p => strLower p.2.target == strLower target)

/-- The rows selected by get_top_features, before projecting the Feature
column.  Mirrors the branch structure of the source: empty frame check,
required-columns check, empty filter check, then the top-n selection (see
stableTopN for the slow-path modelling caveat). -/
def topRows (df : DataFrame) (target : String) (top_n : Int) : List IdxRow :=
  if df.rows.isEmpty then []
  else if !hasRequiredCols df then []
  else if (filteredRows df target).isEmpty then []
  else stableTopN top_n (filteredRows df target)

/-- get_top_features of src/app.py: the Feature column of the selected
rows (the source default for top_n is 20; it is passed explicitly here). -/
def get_top_features (df : DataFrame) (target : String) (top_n : Int) : List String :=
  (topRows df target top_n).map (fun p => p.2.feature)

/-! Model registry as loaded by src/app.py (a Python dict of pickled
model objects) and the api_predict endpoint. -/

/-- A pickled model object as the endpoint sees it: only its Python
truthiness is ever consulted; its run behaviour is carried so that
non-invocation is expressible. -/
structure PyModel where
  truthy : Bool
  run : List (String × Rat) → String

/-- The trained_models dict: target name to model object. -/
abbrev PyRegistry := List (String × PyModel)

/-- Python dict.get: absent keys yield an explicit absent marker, never an
exception. -/
def dict_get (d : PyRegistry) (key : String) : Option PyModel :=
  List.lookup key d

/-- Python truthiness of an Optional model: None is falsy, otherwise the
truthiness of the object itself. -/
def py_truthy : Option PyModel → Bool
  | some m => m.truthy
  | none => false

/-- The JSON body of a POST to /api/predict (request.json); api_predict
never reads it. -/
abbrev RequestBody := List (String × String)

/-- The api_predict handler of src/app.py: looks up Under5 in
trained_models with dict.get, branches on the truthiness of the result,
and returns a single-key JSON object. -/
def api_predict (reg : PyRegistry) (data : RequestBody) : List (String × String) :=
  let prediction_model := dict_get reg "Under5"
  let prediction :=
    if py_truthy prediction_model then "Prediction logic here"
    else "Model for \x27Under5\x27 not found."
  [("prediction", prediction)]

/-! Startup loading with fallback (the two try/except blocks of
src/app.py). -/

/-- The result of unpickling the feature-importance artifact: either a
DataFrame or some other object (the source raises ValueError inside the
try block when the pickle is not a DataFrame). -/
inductive Pickled where
  | df (d : DataFrame)
  | other (desc : String)

/-- The trained_models try/except block: on any load exception the
registry falls back to the empty dict. -/
def load_trained_models (res : Except String PyRegistry) : PyRegistry :=
  match res with
  | .ok m => m
  | .error _ => []

/-- The feature_importances try/except block: on a load exception, or when
the unpickled object is not a DataFrame, fall back to an empty DataFrame
that has the required columns. -/
def load_feature_importances (res : Except String Pickled) : DataFrame :=
  match res with
  | .ok (.df d) => d
  | .ok (.other _) => ⟨required_cols, []⟩
  | .error _ => ⟨required_cols, []⟩

/-! Prediction core modelled from the spec.  The source stubs its
prediction logic (api_predict returns a constant string and the Dash
callback returns a placeholder), so the Prediction Invoker, the Request
Assembler and capability-tagged handles of spec sections 4.3 and 4.4 are
modelled from the words of the spec. -/

/-- Modelled from the spec: the status field of a PredictionResult
(section 3); the Prediction Invoker is missing from the source. -/
inductive Status where
  | Ok
  | NoFeaturesSelected
  | ModelMissing
  | ModelError (msg : String)
deriving DecidableEq

/-- An assembled model input record: feature name to value. -/
abbrev Record := List (String × Rat)

/-- Modelled from the spec: a PredictionResult (section 3), created fresh
per request; probability is optional. -/
structure PredictionResult where
  target : String
  point_estimate : Option Rat
  probability : Option Rat
  status : Status
deriving DecidableEq

/-- Modelled from the spec: a ModelHandle with its capability set
discovered at registration (section 3); invocation may fail, which the
invoker reports as ModelError. -/
structure ModelHandle where
  supports_point_prediction : Bool
  supports_probability_output : Bool
  is_plain_callable : Bool
  runPoint : Record → Except String Rat
  runProb : Record → Except String (List Rat)

/-- Modelled from the spec: the Model Registry, a mapping from target name
to handle (section 4.2). -/
abbrev ModelRegistry := List (String × ModelHandle)

/-- Modelled from the spec: registry get, which never raises and returns
an explicit absent marker for unknown targets (section 4.2). -/
def registry_get (reg : ModelRegistry) (target : String) : Option ModelHandle :=
  List.lookup target reg

/-- Modelled from the spec: the Prediction Invoker of section 4.4,
instrumented with a flag recording whether any model was invoked.  The
state machine is terminal after the first matching branch: ModelMissing,
then ModelError, then Ok; on success the probability (index 1 of the
probability vector) is reported only when the capability set includes
probability output. -/
def predictCall (reg : ModelRegistry) (target : String) (record : Record) :
    PredictionResult × Bool :=
  match registry_get reg target with
  | none => (⟨target, none, none, .ModelMissing⟩, false)
  | some h =>
    match h.runPoint record with
    | .error e => (⟨target, none, none, .ModelError e⟩, true)
    | .ok p =>
      if h.supports_probability_output then
        match h.runProb record with
        | .error e => (⟨target, none, none, .ModelError e⟩, true)
        | .ok ps => (⟨target, some p, ps[1]?, .Ok⟩, true)
      else (⟨target, some p, none, .Ok⟩, true)

/-- Modelled from the spec: predict(target, record) of section 4.4. -/
def predict (reg : ModelRegistry) (target : String) (record : Record) :
    PredictionResult :=
  (predictCall reg target record).1

/-- Modelled from the spec: the Request Assembler of section 4.3; an empty
feature selection signals NoFeaturesSelected before any model is touched,
and missing values default to the placeholder zero. -/
def assemble (target : String) (featureSelection : List String)
    (valueProvider : String → Option Rat) : Except Status Record :=
  if featureSelection.isEmpty then .error .NoFeaturesSelected
  else .ok (featureSelection.map (fun f => (f, (valueProvider f).getD 0)))

/-- Modelled from the spec: a full prediction request, assembler followed
by invoker, with the invocation flag of predictCall. -/
def predictSelection (reg : ModelRegistry) (target : String)
    (featureSelection : List String) (valueProvider : String → Option Rat) :
    PredictionResult × Bool :=
  match assemble target featureSelection valueProvider with
  | .error s => (⟨target, none, none, s⟩, false)
  | .ok record => predictCall reg target record

/-! Concrete objects used by the scenario claim, the counterexample and
the witnesses. -/

/-- The importance table of the scenario in the spec (section 8), with the
capitalised column names the source requires. -/
def scenario_table : DataFrame :=
  ⟨["Target", "Feature", "Importance"],
   [⟨"Under5", "age", mkRat 9 10⟩,
    ⟨"Under5", "region", mkRat 1 2⟩,
    ⟨"Infant", "age", mkRat 7 10⟩]⟩

/-- A table whose columns are exactly the lowercase names the spec gives
for the external input, holding one row that matches target Under5. -/
def lowercase_cols_table : DataFrame :=
  ⟨["target", "feature", "importance"],
   [⟨"Under5", "age", mkRat 9 10⟩]⟩

/-- A one-row table whose only target is Infant. -/
def infant_only_table : DataFrame :=
  ⟨["Target", "Feature", "Importance"],
   [⟨"Infant", "age", mkRat 7 10⟩]⟩

/-- A handle whose capability set excludes probability output and whose
invocation succeeds. -/
def point_only_handle : ModelHandle :=
  ⟨true, false, false, fun _ => .ok 1, fun _ => .error "no probability interface"⟩

/-- A registry holding only the point-only handle for Under5. -/
def point_only_registry : ModelRegistry :=
  [("Under5", point_only_handle)]

/-- A truthy pickled model object (its run behaviour is arbitrary). -/
def truthy_model : PyModel :=
  ⟨true, fun _ => "model output"⟩

/-- A second truthy pickled model object with different run behaviour. -/
def truthy_model_variant : PyModel :=
  ⟨true, fun _ => "different model output"⟩

/-- A registered-but-falsy pickled model object. -/
def falsy_model : PyModel :=
  ⟨false, fun _ => "model output"⟩

/-! Helper lemmas. -/

/-- The second component of any member of enumFrom is a member of the
underlying list. -/
theorem snd_mem_of_mem_enumFrom {α : Type} :
    ∀ {l : List α} {n : Nat} {x : Nat × α}, x ∈ l.enumFrom n → x.2 ∈ l := by
  intro l
  induction l with
  | nil =>
    intro n x h
    exact absurd h (List.not_mem_nil x)
  | cons a t ih =>
    intro n x h
    rcases List.mem_cons.mp h with h | h
    · rw [h]
      exact List.mem_cons_self a t
    · exact List.mem_cons_of_mem a (ih h)

/-- Looking up a key and taking Python truthiness depends only on the
truthiness column of the registry, not on the model objects themselves. -/
theorem dict_get_truthy_congr (key : String) (reg1 : PyRegistry) :
    ∀ reg2 : PyRegistry,
      reg1.map (fun p => (p.1, p.2.truthy)) = reg2.map (fun p => (p.1, p.2.truthy)) →
      py_truthy (dict_get reg1 key) = py_truthy (dict_get reg2 key) := by
  induction reg1 with
  | nil =>
    intro reg2 h
    cases reg2 with
    | nil => rfl
    | cons q t2 => simp at h
  | cons p t ih =>
    intro reg2 h
    cases reg2 with
    | nil => simp at h
    | cons q t2 =>
      obtain ⟨pk, pm⟩ := p
      obtain ⟨qk, qm⟩ := q
      simp only [List.map_cons, List.cons.injEq, Prod.mk.injEq] at h
      obtain ⟨⟨hk, ht⟩, htail⟩ := h
      subst hk
      cases hb : (key == pk) with
      | true => simp [dict_get, List.lookup, hb, py_truthy, ht]
      | false => simpa [dict_get, List.lookup, hb] using ih t2 htail

/-! Claim theorems. -/

/-- Claim C1: for every target with no registered model (including the
empty fallback registry), predict returns a result whose status is
ModelMissing with no point estimate; the registry lookup is a total
function returning an explicit absent marker, so it never raises. -/
theorem predict_missing_model (reg : ModelRegistry) (target : String) (record : Record)
    (h : registry_get reg target = none) :
    (predict reg target record).status = Status.ModelMissing ∧
    (predict reg target record).point_estimate = none := by
  simp [predict, predictCall, h]

/-- Witness for claim C1: the empty registry has no model for Under5 and
predict reports ModelMissing with no point estimate. -/
theorem predict_missing_model_witness :
    registry_get [] "Under5" = none ∧
    ((predict [] "Under5" []).status = Status.ModelMissing ∧
     (predict [] "Under5" []).point_estimate = none) :=
  ⟨rfl, predict_missing_model [] "Under5" [] rfl⟩

/-- Claim C2: a request with an empty feature selection yields the
NoFeaturesSelected status and the invocation flag stays false: the
empty-selection check short-circuits before any model is invoked. -/
theorem predictSelection_empty_selection (reg : ModelRegistry) (target : String)
    (valueProvider : String → Option Rat) :
    (predictSelection reg target [] valueProvider).1.status = Status.NoFeaturesSelected ∧
    (predictSelection reg target [] valueProvider).2 = false :=
  ⟨rfl, rfl⟩

/-- Claim C4: api_predict returns a JSON object with exactly the key
prediction; the request body is never used; the result depends only on
the truthiness column of the registry (so no model is ever invoked); a
truthy entry for Under5 yields the constant placeholder string, while a
falsy-but-registered entry or an absent entry yields the not-found
string. -/
theorem api_predict_contract (reg reg2 : PyRegistry) (data data2 : RequestBody)
    (hagree : reg.map (fun p => (p.1, p.2.truthy)) = reg2.map (fun p => (p.1, p.2.truthy))) :
    (api_predict reg data).map Prod.fst = ["prediction"] ∧
    api_predict reg data = api_predict reg data2 ∧
    api_predict reg data = api_predict reg2 data ∧
    (∀ m, dict_get reg "Under5" = some m → m.truthy = true →
      api_predict reg data = [("prediction", "Prediction logic here")]) ∧
    (∀ m, dict_get reg "Under5" = some m → m.truthy = false →
      api_predict reg data = [("prediction", "Model for \x27Under5\x27 not found.")]) ∧
    (dict_get reg "Under5" = none →
      api_predict reg data = [("prediction", "Model for \x27Under5\x27 not found.")]) := by
  refine ⟨rfl, rfl, ?_, ?_, ?_, ?_⟩
  · have hco := dict_get_truthy_congr "Under5" reg reg2 hagree
    simp only [api_predict]
    rw [hco]
  · intro m hm hmt
    simp [api_predict, hm, py_truthy, hmt]
  · intro m hm hmt
    simp [api_predict, hm, py_truthy, hmt]
  · intro hnone
    simp [api_predict, hnone, py_truthy]

/-- Witness for claim C4: concrete registries exercising the single-key
shape, body independence, run-behaviour independence, the truthy branch,
the registered-but-falsy branch and the absent branch. -/
theorem api_predict_contract_witness :
    (([("Under5", truthy_model)] : PyRegistry).map (fun p => (p.1, p.2.truthy)) =
      ([("Under5", truthy_model_variant)] : PyRegistry).map (fun p => (p.1, p.2.truthy))) ∧
    (api_predict [("Under5", truthy_model)] []).map Prod.fst = ["prediction"] ∧
    api_predict [("Under5", truthy_model)] [] =
      api_predict [("Under5", truthy_model)] [("age", "0")] ∧
    api_predict [("Under5", truthy_model)] [] =
      api_predict [("Under5", truthy_model_variant)] [] ∧
    api_predict [("Under5", truthy_model)] [] = [("prediction", "Prediction logic here")] ∧
    api_predict [("Under5", falsy_model)] [] =
      [("prediction", "Model for \x27Under5\x27 not found.")] ∧
    api_predict [] [] = [("prediction", "Model for \x27Under5\x27 not found.")] := by
  have h := api_predict_contract [("Under5", truthy_model)] [("Under5", truthy_model_variant)]
    [] [("age", "0")] rfl
  have h2 := api_predict_contract [("Under5", falsy_model)] [("Under5", falsy_model)] [] [] rfl
  have h3 := api_predict_contract [] [] [] [] rfl
  exact ⟨rfl, h.1, h.2.1, h.2.2.1, h.2.2.2.1 truthy_model rfl rfl,
    h2.2.2.2.2.1 falsy_model rfl rfl, h3.2.2.2.2.2 rfl⟩

/-- Claim C5: when loading the model artifact or the feature-importance
artifact raises (unreadable, corrupt, or not a DataFrame), the process
continues with the empty fallbacks: every registry lookup reports absent
and every top-features call returns the empty sequence. -/
theorem load_failure_falls_back (e : String) (d : String) (t : String) (n : Int) :
    dict_get (load_trained_models (Except.error e)) t = none ∧
    get_top_features (load_feature_importances (Except.error e)) t n = [] ∧
    get_top_features (load_feature_importances (Except.ok (Pickled.other d))) t n = [] :=
  ⟨rfl, rfl, rfl⟩

/-- Claim C6: on the scenario table with rows (Under5, age, 0.9),
(Under5, region, 0.5), (Infant, age, 0.7), asking for the single top
feature of target under5 matches case-insensitively and returns exactly
the feature age. -/
theorem topFeatures_scenario : get_top_features scenario_table "under5" 1 = ["age"] := by
  decide

/-- Claim C7 (amended) counterexample: the table whose columns are exactly
the lowercase names target, feature, importance fails the required-columns
check of the source (which compares against the capitalised names
case-sensitively), so even though it holds a row matching Under5, the
top-features call treats it as empty and returns the empty sequence,
contrary to the claim that such a table counts as having the required
columns. -/
theorem topFeatures_lowercase_cols_counterexample :
    hasRequiredCols lowercase_cols_table = false ∧
    lowercase_cols_table.rows ≠ [] ∧
    lowercase_cols_table.rows.any
      (fun r => strLower r.target == strLower "Under5") = true ∧
    get_top_features lowercase_cols_table "Under5" 5 = [] := by
  decide

/-- Claim C7 (amended): for every loaded table missing any of the required
columns Target, Feature, Importance (matched case-sensitively, so a table
with only the lowercase column names counts as missing them), top-features
returns the empty sequence for every target and N, and no exception is
propagated (the embedding is a total function). -/
theorem topFeatures_missing_cols (df : DataFrame) (target : String) (n : Int)
    (h : hasRequiredCols df = false) :
    get_top_features df target n = [] := by
  simp [get_top_features, topRows, h]

/-- Witness for claim C7: the lowercase-columns table is missing the
required columns and yields the empty sequence. -/
theorem topFeatures_missing_cols_witness :
    hasRequiredCols lowercase_cols_table = false ∧
    get_top_features lowercase_cols_table "under5" 3 = [] :=
  ⟨by decide, topFeatures_missing_cols lowercase_cols_table "under5" 3 (by decide)⟩

/-- Claim C8: for every table and target such that no row matches the
target case-insensitively (including the empty table), top-features
returns the empty sequence for every N; the embedding is a total
function, so nothing is raised. -/
theorem topFeatures_unknown_target (df : DataFrame) (target : String) (n : Int)
    (h : ∀ r ∈ df.rows, strLower r.target ≠ strLower target) :
    get_top_features df target n = [] := by
  have hf : filteredRows df target = [] := by
    apply List.filter_eq_nil_iff.mpr
    intro x hx
    simp only [beq_iff_eq]
    exact h x.2 (snd_mem_of_mem_enumFrom hx)
  simp [get_top_features, topRows, hf]

/-- Witness for claim C8: a table whose only target is Infant yields the
empty sequence for the absent target Under5. -/
theorem topFeatures_unknown_target_witness :
    (∀ r ∈ infant_only_table.rows, strLower r.target ≠ strLower "Under5") ∧
    get_top_features infant_only_table "Under5" 7 = [] :=
  ⟨by decide, topFeatures_unknown_target infant_only_table "Under5" 7 (by decide)⟩

/-- Claim C9: for every table and target, a non-positive N yields the
empty sequence (pandas nlargest returns the empty frame for N at most
zero). -/
theorem topFeatures_nonpos_n (df : DataFrame) (target : String) (n : Int)
    (h : n ≤ 0) :
    get_top_features df target n = [] := by
  simp [get_top_features, topRows, stableTopN, Int.toNat_of_nonpos h]

/-- Witness for claim C9: the scenario table with N equal to minus three
yields the empty sequence. -/
theorem topFeatures_nonpos_n_witness :
    ((-3 : Int) ≤ 0) ∧ get_top_features scenario_table "under5" (-3) = [] :=
  ⟨by decide, topFeatures_nonpos_n scenario_table "under5" (-3) (by decide)⟩

/-- Claim C10: a handle whose capability set excludes probability output
never yields a populated probability field, even when the invocation
succeeds with status Ok; probability can be populated only through the
branch guarded by the capability flag. -/
theorem predict_respects_probability_capability (reg : ModelRegistry) (target : String)
    (record : Record) (h : ModelHandle)
    (hget : registry_get reg target = some h)
    (hcap : h.supports_probability_output = false) :
    (predict reg target record).probability = none := by
  simp only [predict, predictCall, hget, hcap]
  cases h.runPoint record with
  | error e => rfl
  | ok p => rfl

/-- Witness for claim C10: a registry holding a point-only handle for
Under5 whose invocation succeeds, with no probability in the result. -/
theorem predict_respects_probability_capability_witness :
    registry_get point_only_registry "Under5" = some point_only_handle ∧
    point_only_handle.supports_probability_output = false ∧
    (predict point_only_registry "Under5" []).status = Status.Ok ∧
    (predict point_only_registry "Under5" []).probability = none :=
  ⟨rfl, rfl, rfl,
    predict_respects_probability_capability point_only_registry "Under5" []
      point_only_handle rfl rfl⟩
